import Mathlib

/-!
# Horusec CLI: the flags of the `start` command

A shallow embedding of `cmd/app/start/flags.go`: the function `startFlags`, which registers
the command-line flags of `horusec start` on a flag set, and the structure `NewConfig` that
the flag values are bound into.

The flag set is the one of the library `github.com/spf13/pflag`; the part of it that
`startFlags` uses (registration with its failure cases, lookup, typed getters) is embedded in
the namespace `pflag`. A Go panic is the `Except.error` case. Flag names are not normalised
(the flag set has no normalisation function unless one is installed), the string form
`DefValue` of a default is left out, and a getter returns the value the flag holds.
-/

namespace pflag

/-- The value a flag holds; one constructor per value type `startFlags` registers. -/
inductive Value where
  | int64 (v : Int)
  | string (v : String)
  | stringSlice (v : List String)
  | stringToString (v : List (String × String))
  | bool (v : Bool)
deriving DecidableEq

/-- A registered flag: long name, one-letter shorthand (empty when there is none), help text,
the value (the default, until the command line is parsed) and the value taken when the flag is
given without an argument. -/
structure Flag where
  Name : String
  Shorthand : String
  Usage : String
  Value : Value
  NoOptDefVal : String
deriving DecidableEq

/-- A flag set: the flags in registration order (`orderedFormal`, which also serves as the
map `formal` from names to flags) and the map `shorthands` from shorthand letters to flags. -/
structure FlagSet where
  formal : List Flag
  shorthands : List (Char × Flag)
deriving DecidableEq

/-- The flag set a new command starts with. -/
def NewFlagSet : FlagSet := ⟨[], []⟩

namespace FlagSet

/-- The flag registered under a long name, if any. -/
def Lookup (f : FlagSet) (name : String) : Option Flag :=
  f.formal.find? (fun g => g.Name == name)

/-- The flag registered under a shorthand letter, if any. -/
def ShorthandLookup (f : FlagSet) (c : Char) : Option Flag :=
  (f.shorthands.find? (fun p => p.1 == c)).map Prod.snd

/-- Registration of one flag. It fails (panics) when the long name is already registered,
when the shorthand has more than one character, and when the shorthand letter is already
taken; a flag with the empty shorthand is not entered in `shorthands`. -/
def AddFlag (f : FlagSet) (flag : Flag) : Except String FlagSet :=
  match f.Lookup flag.Name with
  | some _ => .error ("flag redefined: " ++ flag.Name)
  | none =>
    match flag.Shorthand.data with
    | [] => .ok ⟨f.formal ++ [flag], f.shorthands⟩
    | [c] =>
      match f.ShorthandLookup c with
      | some used =>
        .error ("unable to redefine " ++ flag.Shorthand ++ " shorthand: it is already used for "
          ++ used.Name ++ " flag")
      | none => .ok ⟨f.formal ++ [flag], f.shorthands ++ [(c, flag)]⟩
    | _ => .error (flag.Shorthand ++ " shorthand is more than one ASCII character")

/-- Registration of a value under a name and a shorthand. -/
def VarPF (f : FlagSet) (value : Value) (name shorthand usage : String) :
    Except String FlagSet :=
  f.AddFlag ⟨name, shorthand, usage, value, ""⟩

/-- Registration of a 64-bit integer flag with a shorthand. -/
def Int64P (f : FlagSet) (name shorthand : String) (value : Int) (usage : String) :
    Except String FlagSet :=
  f.VarPF (.int64 value) name shorthand usage

/-- Registration of a string flag with a shorthand. -/
def StringP (f : FlagSet) (name shorthand : String) (value : String) (usage : String) :
    Except String FlagSet :=
  f.VarPF (.string value) name shorthand usage

/-- Registration of a string-slice flag with a shorthand. -/
def StringSliceP (f : FlagSet) (name shorthand : String) (value : List String) (usage : String) :
    Except String FlagSet :=
  f.VarPF (.stringSlice value) name shorthand usage

/-- Registration of a string-slice flag without a shorthand. -/
def StringSlice (f : FlagSet) (name : String) (value : List String) (usage : String) :
    Except String FlagSet :=
  f.StringSliceP name "" value usage

/-- Registration of a string-to-string map flag without a shorthand. -/
def StringToString (f : FlagSet) (name : String) (value : List (String × String))
    (usage : String) : Except String FlagSet :=
  f.VarPF (.stringToString value) name "" usage

/-- Registration of a boolean flag with a shorthand; given without an argument it means
`true`. -/
def BoolP (f : FlagSet) (name shorthand : String) (value : Bool) (usage : String) :
    Except String FlagSet :=
  f.AddFlag ⟨name, shorthand, usage, .bool value, "true"⟩

/-- The current value of a string-slice flag; an error when the flag is not registered or
holds a value of another type. -/
def GetStringSlice (f : FlagSet) (name : String) : Except String (List String) :=
  match f.Lookup name with
  | none => .error ("flag accessed but not defined: " ++ name)
  | some flag =>
    match flag.Value with
    | .stringSlice v => .ok v
    | _ => .error ("trying to get stringSlice value of flag of another type: " ++ name)

/-- The current value of a 64-bit integer flag. -/
def GetInt64 (f : FlagSet) (name : String) : Except String Int :=
  match f.Lookup name with
  | none => .error ("flag accessed but not defined: " ++ name)
  | some flag =>
    match flag.Value with
    | .int64 v => .ok v
    | _ => .error ("trying to get int64 value of flag of another type: " ++ name)

/-- The current value of a boolean flag. -/
def GetBool (f : FlagSet) (name : String) : Except String Bool :=
  match f.Lookup name with
  | none => .error ("flag accessed but not defined: " ++ name)
  | some flag =>
    match flag.Value with
    | .bool v => .ok v
    | _ => .error ("trying to get bool value of flag of another type: " ++ name)

/-- Registration of a boolean flag without a shorthand. -/
def Bool (f : FlagSet) (name : String) (value : Bool) (usage : String) :
    Except String FlagSet :=
  f.BoolP name "" value usage

end FlagSet

end pflag

namespace vulnerability

/-- Modelled from the spec: the vulnerability type of package `vulnerability`
(`horusec-devkit/pkg/enums/vulnerability`), which is not among the sources. Its four members
are the ones of the spec's data model. -/
inductive VulnType where
  | Vulnerability
  | RiskAccepted
  | FalsePositive
  | Corrected
deriving DecidableEq

/-- Modelled from the spec: the string form of a vulnerability type, as the usage text of the
flag `show-vulnerabilities-types` lists them. -/
def VulnType.ToString : VulnType → String
  | .Vulnerability => "Vulnerability"
  | .RiskAccepted => "Risk Accepted"
  | .FalsePositive => "False Positive"
  | .Corrected => "Corrected"

end vulnerability

namespace start

/-- What `startFlags` reads from outside the package: the result `(wd, err)` of `os.Getwd()`,
the function `filepath.Base`, and the build-time constant behind `dist.IsStandAlone()`. -/
structure Env where
  Getwd : String × Option String
  Base : String → String
  IsStandAlone : Bool

/-- The function `startFlags` of `cmd/app/start/flags.go`. The flag set is passed in and
returned; a panic of a registration ends the function with `Except.error`. The warning that is
logged when the working directory cannot be read changes nothing in the flag set and is left
out. -/
def startFlags (env : Env) (flags : pflag.FlagSet) : Except String pflag.FlagSet := do
  let wd := env.Getwd.1
  let flags ← flags.Int64P
    "monitor-retry-count" "m"
    15
    "The number of retries for the monitor."
  let flags ← flags.StringP
    "output-format" "o"
    ""
    "The format for the output to be shown. Options are: text (stdout), json, sonarqube"
  let flags ← flags.StringSliceP
    "ignore-severity" "s"
    ["INFO"]
    "The level of vulnerabilities to ignore in the output. Example: -s=\"LOW, MEDIUM, HIGH\""
  let flags ← flags.StringP
    "json-output-file" "O"
    ""
    "If your pass output-format you can configure the output JSON location. Example: -O=\"/tmp/output.json\""
  let flags ← flags.StringSliceP
    "ignore" "i"
    ["*tmp*", "**/.vscode/**"]
    "Paths to ignore in the analysis. Example: -i=\"/home/user/project/assets, /home/user/project/deployments\""
  let flags ← flags.StringP
    "horusec-url" "u"
    "http://0.0.0.0:8000"
    "The Horusec API address to access the analysis engine"
  let flags ← flags.Int64P
    "request-timeout" "r"
    300
    "The timeout threshold for the request to the Horusec API"
  let flags ← flags.Int64P
    "analysis-timeout" "t"
    600
    "The timeout threshold for the Horusec CLI wait for the analysis to complete."
  let flags ← flags.StringP
    "authorization" "a"
    ""
    "The authorization token for the Horusec API"
  let flags ← flags.StringToString
    "headers"
    []
    "The headers dynamic to send on request in Horusec API. Example --headers=\"\x7b\"X-Auth-Service\": \"my-value\"\x7d\""
  let flags ← flags.BoolP
    "return-error" "e"
    false
    "The return-error is the option to check if you can return \"exit(1)\" if found vulnerabilities. Example -e=\"true\""
  let flags ← flags.StringP
    "project-path" "p"
    wd
    "Path to run an analysis in your project"
  let flags ← flags.Bool
    "enable-git-history"
    false
    "When this value is \"true\" we will run tool gitleaks and search vulnerability in all git history of the project. Example --enable-git-history=\"true\""
  let flags ← flags.BoolP
    "insecure-skip-verify" "S"
    false
    "Insecure skip verify cert authority. PLEASE, try not to use it. Example -S=\"true\""
  let flags ← flags.StringP
    "certificate-path" "C"
    ""
    "Path to certificate of authority. Example -C=\"/example/ca.crt\""
  let flags ← flags.BoolP
    "enable-commit-author" "G"
    false
    "Used to enable or disable search with vulnerability author. Example -G=\"true\""
  let flags ← flags.StringP
    "repository-name" "n"
    (env.Base wd)
    "Used to send repository name to horus server. Example -n=\"horus\""
  let flags ← flags.StringSliceP
    "false-positive" "F"
    []
    "Used to ignore a vulnerability by hash and setting it to be of the false positive type. Example -F=\"hash1, hash2\""
  let flags ← flags.StringSliceP
    "risk-accept" "R"
    []
    "Used to ignore a vulnerability by hash and setting it to be of the risk accept type. Example -R=\"hash3, hash4\""
  let flags ← flags.StringP
    "container-bind-project-path" "P"
    ""
    "Used to pass project path in host when running horusec cli inside a container."
  let flags ← flags.StringP
    "custom-rules-path" "c"
    ""
    "Used to pass the path to the horusec custom rules file. Example: -c=\"./horusec/horusec-custom-rules.json\"."
  let flags ← flags.BoolP
    "information-severity" "I"
    false
    "Used to enable or disable information severity vulnerabilities, information vulnerabilities can contain a lot of false positives. Example: -I=\"true\""
  let flags ← flags.StringSlice
    "show-vulnerabilities-types"
    [vulnerability.VulnType.Vulnerability.ToString]
    "Used to show in the output vulnerabilities of types: Vulnerability, Risk Accepted, False Positive, Corrected. Example --show-vulnerabilities-types=\"Vulnerability, Risk Accepted\""
  let flags ← flags.BoolP
    "enable-owasp-dependency-check" "w"
    false
    "Enable owasp dependency check. Example -w=\"true\". Default: false"
  let flags ← flags.BoolP
    "enable-shellcheck" "j"
    false
    "Enable shellcheck. Example -h=\"true\". Default: false"
  if !env.IsStandAlone then
    flags.BoolP
      "disable-docker" "D"
      env.IsStandAlone
      "Used to run horusec without docker if enabled it will only run the following tools: horusec-csharp, horusec-kotlin, horusec-java, horusec-kubernetes, horusec-leaks, horusec-nodejs, horusec-dart, horusec-nginx. Example: -D=\"true\""
  else
    pure flags

end start


namespace start

/-- The structure `NewConfig` of `cmd/app/start/flags.go`, field by field. The packages
`custom_images`, `toolsconfig` and `workdir` are not among the sources, so the three types
they declare are parameters; a Go map of strings is a list of pairs, `int64` is `Int`, a
pointer is an `Option`. -/
structure NewConfig (CustomImages MapToolConfig WorkDir : Type) where
  HorusecCliCertInsecureSkipVerify : Bool
  HorusecCliCertPath : String
  HorusecCliContainerBindProjectPath : String
  HorusecCliCustomImages : CustomImages
  HorusecCliCustomRulesPath : String
  HorusecCliDisableDocker : Bool
  HorusecCliEnableCommitAuthor : Bool
  HorusecCliEnableGitHistoryAnalysis : Bool
  HorusecCliEnableInformationSeverity : Bool
  HorusecCliFalsePositiveHashes : List String
  HorusecCliFilesOrPathsToIgnore : List String
  HorusecCliHeaders : List (String × String)
  HorusecCliHorusecAPIURI : String
  HorusecCliJSONOutputFilepath : String
  HorusecCliMonitorRetryInSeconds : Int
  HorusecCliPrintOutputType : String
  HorusecCliProjectPath : String
  HorusecCliRepositoryAuthorization : String
  HorusecCliRepositoryName : String
  HorusecCliReturnErrorIfFoundVulnerability : Bool
  HorusecCliRiskAcceptHashes : List String
  HorusecCliSeveritiesToIgnore : List String
  HorusecCliShowVulnerabilitiesTypes : List String
  HorusecCliTimeoutInSecondsAnalysis : Int
  HorusecCliTimeoutInSecondsRequest : Int
  HorusecCliToolsConfig : MapToolConfig
  HorusecCliWorkDir : Option WorkDir

end start

/-!
## The classification pipeline and the report

The code that consumes the configuration (path filter, hash rules, type and severity filters,
report) is not in `cmd/app/start/flags.go`. The definitions of this section follow sections 3,
4.4 and 4.5 of the specification.
-/

namespace severities

/-- Modelled from the spec: the severity of a finding, the enumeration of the data model
(section 3); the severity enumeration itself is not among the sources. -/
inductive Severity where
  | INFO
  | LOW
  | MEDIUM
  | HIGH
  | CRITICAL
  | UNKNOWN
deriving DecidableEq

/-- Modelled from the spec: the string form of a severity, the names the spec and the usage
text of `ignore-severity` write. -/
def Severity.ToString : Severity → String
  | .INFO => "INFO"
  | .LOW => "LOW"
  | .MEDIUM => "MEDIUM"
  | .HIGH => "HIGH"
  | .CRITICAL => "CRITICAL"
  | .UNKNOWN => "UNKNOWN"

end severities

namespace engine

open start severities vulnerability

/-- Modelled from the spec: the canonical finding of section 3 (hash, file path, line range,
severity, vulnerability type, source tool, confidence); the finding type is not among the
sources. The line range is `line` (first line) to `lineEnd`. -/
structure Finding where
  hash : String
  filePath : String
  line : Nat
  lineEnd : Nat
  severity : Severity
  vulnType : VulnType
  sourceTool : String
  confidence : String
deriving DecidableEq

/-- Modelled from the spec: the report of section 3 (ordered findings, totals by severity,
pass/fail) with the duplicate count of section 4.5; the report type is not among the sources. -/
structure Report where
  findings : List Finding
  totals : Severity → Nat
  duplicates : Nat
  pass : Bool

/-- Some suffix of the text, reached by skipping any characters, satisfies `k`. -/
def anySuffix (k : List Char → Bool) : List Char → Bool
  | [] => k []
  | c :: cs => k (c :: cs) || anySuffix k cs

/-- Some suffix of the text, reached by skipping characters other than the separator,
satisfies `k`. -/
def anySuffixInSegment (k : List Char → Bool) : List Char → Bool
  | [] => k []
  | c :: cs => k (c :: cs) || (c != '/' && anySuffixInSegment k cs)

/-- Modelled from the spec: glob matching on characters, "standard recursive wildcard syntax",
case-sensitive (section 4.4, stage 1); the matcher is not among the sources. `**` stands for
any run of characters, `*` for any run of characters other than `/`, `?` for one character
other than `/`, every other character for itself. -/
def globChars : List Char → List Char → Bool
  | [] => fun s => s.isEmpty
  | a :: p => fun s =>
    if a = '*' then
      match p with
      | [] => anySuffixInSegment (globChars []) s
      | b :: q =>
        if b = '*' then anySuffix (globChars q) s
        else anySuffixInSegment (globChars (b :: q)) s
    else
      match s with
      | [] => false
      | c :: cs =>
        if a = '?' then c != '/' && globChars p cs
        else a == c && globChars p cs

/-- Modelled from the spec: a path matches a glob (section 4.4, stage 1). -/
def globMatch (glob path : String) : Bool :=
  globChars glob.data path.data

variable {CustomImages MapToolConfig WorkDir : Type}

/-- Modelled from the spec: a path matches one of the configured ignore globs. -/
def ignoredPath (config : NewConfig CustomImages MapToolConfig WorkDir) (path : String) : Bool :=
  config.HorusecCliFilesOrPathsToIgnore.any (fun g => globMatch g path)

/-- Modelled from the spec: stage 1 of section 4.4, the path-ignore filter. -/
def pathIgnoreFilter (config : NewConfig CustomImages MapToolConfig WorkDir)
    (fs : List Finding) : List Finding :=
  fs.filter (fun f => !ignoredPath config f.filePath)

/-- Modelled from the spec: stage 2 of section 4.4 on one finding. A hash in the
false-positive set gives the type False Positive, else a hash in the risk-accepted set gives
Risk Accepted, else the type is left as it is. -/
def reclassify (config : NewConfig CustomImages MapToolConfig WorkDir) (f : Finding) : Finding :=
  if f.hash ∈ config.HorusecCliFalsePositiveHashes then { f with vulnType := .FalsePositive }
  else if f.hash ∈ config.HorusecCliRiskAcceptHashes then { f with vulnType := .RiskAccepted }
  else f

/-- Modelled from the spec: stage 3 of section 4.4, the type-visibility filter. -/
def typeVisibilityFilter (config : NewConfig CustomImages MapToolConfig WorkDir)
    (fs : List Finding) : List Finding :=
  fs.filter (fun f => decide (f.vulnType.ToString ∈ config.HorusecCliShowVulnerabilitiesTypes))

/-- Modelled from the spec: stage 4 of section 4.4, the severity-ignore filter, with the edge
case of the same section: a finding of severity UNKNOWN is never dropped by it. -/
def severityIgnoreFilter (config : NewConfig CustomImages MapToolConfig WorkDir)
    (fs : List Finding) : List Finding :=
  fs.filter (fun f => decide (f.severity = .UNKNOWN) ||
    !decide (f.severity.ToString ∈ config.HorusecCliSeveritiesToIgnore))

/-- Modelled from the spec: stage 5 of section 4.4, the information-severity gate. -/
def informationSeverityGate (config : NewConfig CustomImages MapToolConfig WorkDir)
    (fs : List Finding) : List Finding :=
  fs.filter (fun f => config.HorusecCliEnableInformationSeverity ||
    !decide (f.severity = .INFO))

/-- Modelled from the spec: `Classify` of section 4.4, the five stages in their fixed order. -/
def Classify (config : NewConfig CustomImages MapToolConfig WorkDir)
    (fs : List Finding) : List Finding :=
  informationSeverityGate config
    (severityIgnoreFilter config
      (typeVisibilityFilter config
        ((pathIgnoreFilter config fs).map (reclassify config))))

/-- The triple (hash, file path, line) findings are deduplicated by. -/
def Finding.triple (f : Finding) : String × String × Nat :=
  (f.hash, f.filePath, f.line)

/-- Modelled from the spec: deduplication of section 4.5; of the findings with one triple the
first seen is kept. `seen` holds the triples met so far. -/
def dedupFrom (seen : List (String × String × Nat)) : List Finding → List Finding
  | [] => []
  | f :: fs =>
    if f.triple ∈ seen then dedupFrom seen fs
    else f :: dedupFrom (f.triple :: seen) fs

/-- Modelled from the spec: the report order of section 4.5, severity descending, then file
path, line and hash ascending. The spec does not rank the severities, so the rank is a
parameter. -/
def reportBefore (rank : Severity → Nat) (f g : Finding) : Bool :=
  if rank f.severity ≠ rank g.severity then decide (rank g.severity < rank f.severity)
  else if f.filePath ≠ g.filePath then decide (f.filePath < g.filePath)
  else if f.line ≠ g.line then decide (f.line < g.line)
  else decide (f.hash ≤ g.hash)

/-- Insertion of a finding into a list ordered by `reportBefore`. -/
def insertOrdered (rank : Severity → Nat) (f : Finding) : List Finding → List Finding
  | [] => [f]
  | g :: gs => if reportBefore rank f g then f :: g :: gs else g :: insertOrdered rank f gs

/-- Modelled from the spec: the deterministic sort of section 4.5. -/
def sortFindings (rank : Severity → Nat) : List Finding → List Finding
  | [] => []
  | f :: fs => insertOrdered rank f (sortFindings rank fs)

/-- Modelled from the spec: `Aggregate` of section 4.5: deduplicate, sort, total by severity
and decide pass/fail. The run fails when the caller opted into an error on found
vulnerabilities and a finding of type Vulnerability with a severity outside the ignore set
remains. -/
def Aggregate (rank : Severity → Nat) (config : NewConfig CustomImages MapToolConfig WorkDir)
    (fs : List Finding) : Report :=
  let kept := dedupFrom [] fs
  let sorted := sortFindings rank kept
  { findings := sorted
    totals := fun s => sorted.countP (fun f => decide (f.severity = s))
    duplicates := fs.length - kept.length
    pass := !(config.HorusecCliReturnErrorIfFoundVulnerability &&
      sorted.any (fun f => decide (f.vulnType = .Vulnerability) &&
        !decide (f.severity.ToString ∈ config.HorusecCliSeveritiesToIgnore))) }

end engine

/-!
## The example of a usage text
-/

namespace start

/-- The shorthand letter the example of a usage text shows: the character after the first
`Example -` or `Example: -` of the text. There is none when the text has no example and when
the example writes the long name of the flag (`--`). -/
def exampleShorthand : List Char → Option Char
  | [] => none
  | c :: cs =>
    if "Example -".data.isPrefixOf (c :: cs) then
      (((c :: cs).drop 9).head?).filter (fun x => x != '-')
    else if "Example: -".data.isPrefixOf (c :: cs) then
      (((c :: cs).drop 10).head?).filter (fun x => x != '-')
    else exampleShorthand cs

/-- The example of a usage text, when it shows a shorthand, shows the given one. -/
def exampleAgrees (shorthand usage : String) : Bool :=
  match exampleShorthand usage.data with
  | none => true
  | some c => shorthand.data == [c]

end start

/-!
## Example values
-/

namespace start

open engine severities vulnerability

/-- A configuration with the values `startFlags` registers as defaults. -/
def exampleConfig : NewConfig Unit Unit Unit where
  HorusecCliCertInsecureSkipVerify := false
  HorusecCliCertPath := ""
  HorusecCliContainerBindProjectPath := ""
  HorusecCliCustomImages := ()
  HorusecCliCustomRulesPath := ""
  HorusecCliDisableDocker := false
  HorusecCliEnableCommitAuthor := false
  HorusecCliEnableGitHistoryAnalysis := false
  HorusecCliEnableInformationSeverity := false
  HorusecCliFalsePositiveHashes := []
  HorusecCliFilesOrPathsToIgnore := ["*tmp*", "**/.vscode/**"]
  HorusecCliHeaders := []
  HorusecCliHorusecAPIURI := "http://0.0.0.0:8000"
  HorusecCliJSONOutputFilepath := ""
  HorusecCliMonitorRetryInSeconds := 15
  HorusecCliPrintOutputType := ""
  HorusecCliProjectPath := "/home/user/proj"
  HorusecCliRepositoryAuthorization := ""
  HorusecCliRepositoryName := "proj"
  HorusecCliReturnErrorIfFoundVulnerability := false
  HorusecCliRiskAcceptHashes := []
  HorusecCliSeveritiesToIgnore := ["INFO"]
  HorusecCliShowVulnerabilitiesTypes := ["Vulnerability"]
  HorusecCliTimeoutInSecondsAnalysis := 600
  HorusecCliTimeoutInSecondsRequest := 300
  HorusecCliToolsConfig := ()
  HorusecCliWorkDir := none

/-- A rank of the severities for the report order, UNKNOWN lowest. -/
def exampleRank : Severity → Nat
  | .UNKNOWN => 0
  | .INFO => 1
  | .LOW => 2
  | .MEDIUM => 3
  | .HIGH => 4
  | .CRITICAL => 5

/-- A finding in the editor settings of a project. -/
def vscodeFinding : Finding :=
  { hash := "h0", filePath := "proj/.vscode/settings.json", line := 3, lineEnd := 3,
    severity := .HIGH, vulnType := .Vulnerability, sourceTool := "horusec-leaks",
    confidence := "HIGH" }

/-- A finding in a source file of a project. -/
def sourceFinding : Finding :=
  { hash := "h1", filePath := "src/a.go", line := 10, lineEnd := 10,
    severity := .HIGH, vulnType := .Vulnerability, sourceTool := "horusec-go",
    confidence := "HIGH" }

end start

/-!
## Registration, step by step

Two rewriting lemmas that run `startFlags` on a flag set given by its two lists.
-/

namespace pflag.FlagSet

theorem ok_bind {α β : Type} (a : α) (k : α → Except String β) :
    (Except.ok a >>= k) = k a := rfl

theorem AddFlag_mk (fm : List Flag) (sh : List (Char × Flag)) (flag : Flag) :
    AddFlag ⟨fm, sh⟩ flag =
      match fm.find? (fun g => g.Name == flag.Name) with
      | some _ => .error ("flag redefined: " ++ flag.Name)
      | none =>
        match flag.Shorthand.data with
        | [] => .ok ⟨fm ++ [flag], sh⟩
        | [c] =>
          match (sh.find? (fun p => p.1 == c)).map Prod.snd with
          | some used =>
            .error ("unable to redefine " ++ flag.Shorthand ++ " shorthand: it is already used for "
              ++ used.Name ++ " flag")
          | none => .ok ⟨fm ++ [flag], sh ++ [(c, flag)]⟩
        | _ => .error (flag.Shorthand ++ " shorthand is more than one ASCII character") := rfl

end pflag.FlagSet

/-!
## The pipeline only removes, retypes and reorders findings
-/

namespace engine

open start severities vulnerability

variable {CustomImages MapToolConfig WorkDir : Type}

theorem mem_insertOrdered (rank : Severity → Nat) (f g : Finding) (l : List Finding) :
    g ∈ insertOrdered rank f l ↔ g = f ∨ g ∈ l := by
  induction l with
  | nil => simp [insertOrdered]
  | cons a l ih =>
    unfold insertOrdered
    split
    · simp
    · simp only [List.mem_cons, ih]
      tauto

theorem mem_sortFindings (rank : Severity → Nat) (g : Finding) (l : List Finding) :
    g ∈ sortFindings rank l ↔ g ∈ l := by
  induction l with
  | nil => simp [sortFindings]
  | cons a l ih => simp [sortFindings, mem_insertOrdered, ih]

theorem mem_of_mem_dedupFrom (g : Finding) (l : List Finding) :
    ∀ seen : List (String × String × Nat), g ∈ dedupFrom seen l → g ∈ l := by
  induction l with
  | nil => intro seen h; simp [dedupFrom] at h
  | cons a l ih =>
    intro seen h
    unfold dedupFrom at h
    split at h
    · exact List.mem_cons_of_mem a (ih seen h)
    · rcases List.mem_cons.mp h with h | h
      · exact h ▸ List.mem_cons_self a l
      · exact List.mem_cons_of_mem a (ih _ h)

theorem reclassify_filePath (config : NewConfig CustomImages MapToolConfig WorkDir)
    (f : Finding) : (reclassify config f).filePath = f.filePath := by
  unfold reclassify
  split
  · rfl
  · split <;> rfl

theorem not_ignored_of_mem_Classify (config : NewConfig CustomImages MapToolConfig WorkDir)
    (fs : List Finding) (g : Finding) (h : g ∈ Classify config fs) :
    ignoredPath config g.filePath = false := by
  simp only [Classify, informationSeverityGate, severityIgnoreFilter, typeVisibilityFilter,
    pathIgnoreFilter, List.mem_filter, List.mem_map] at h
  obtain ⟨⟨⟨⟨f, ⟨_, hf⟩, rfl⟩, _⟩, _⟩, _⟩ := h
  rw [reclassify_filePath]
  simpa using hf

theorem not_ignored_of_mem_Aggregate (rank : Severity → Nat)
    (config : NewConfig CustomImages MapToolConfig WorkDir) (fs : List Finding) (g : Finding)
    (h : g ∈ (Aggregate rank config (Classify config fs)).findings) :
    ignoredPath config g.filePath = false := by
  simp only [Aggregate, mem_sortFindings] at h
  exact not_ignored_of_mem_Classify config fs g (mem_of_mem_dedupFrom g _ [] h)

end engine

namespace start

open pflag severities vulnerability engine

/-- C1: the default registered for `ignore-severity` is exactly the list `["INFO"]`; under it
INFO is ignored and no other severity (LOW, MEDIUM, HIGH, CRITICAL, UNKNOWN) is. -/
theorem ignore_severity_default (env : Env) :
    ∃ fs ignored, startFlags env NewFlagSet = .ok fs ∧
      fs.GetStringSlice "ignore-severity" = .ok ignored ∧
      ignored = ["INFO"] ∧
      ∀ s : Severity, s.ToString ∈ ignored ↔ s = .INFO := by
  obtain ⟨⟨wd, err⟩, base, sa⟩ := env
  cases sa <;>
  · simp only [startFlags, FlagSet.Int64P, FlagSet.StringP, FlagSet.StringSliceP,
      FlagSet.StringSlice, FlagSet.StringToString, FlagSet.BoolP, FlagSet.Bool, FlagSet.VarPF,
      NewFlagSet, FlagSet.AddFlag_mk, FlagSet.ok_bind, List.find?_cons, List.find?_nil,
      List.cons_append, List.nil_append, Option.map_none', Option.map_some', String.reduceBEq,
      Char.reduceBEq, Bool.not_false, Bool.not_true, Bool.false_eq_true, if_true, if_false,
      pure, Except.pure, Except.ok.injEq, exists_and_left, exists_eq_left',
      FlagSet.GetStringSlice, FlagSet.GetInt64, FlagSet.GetBool, FlagSet.Lookup,
      FlagSet.ShorthandLookup]
    refine ⟨trivial, fun s => ?_⟩
    cases s <;> decide

/-- C2: the default registered for `show-vulnerabilities-types` has exactly one element, the
string form of the type Vulnerability; the string form of no other type (Risk Accepted, False
Positive, Corrected) is in it. -/
theorem show_vulnerabilities_types_default (env : Env) :
    ∃ fs shown, startFlags env NewFlagSet = .ok fs ∧
      fs.GetStringSlice "show-vulnerabilities-types" = .ok shown ∧
      shown = [VulnType.Vulnerability.ToString] ∧
      shown.length = 1 ∧
      ∀ t : VulnType, t.ToString ∈ shown ↔ t = .Vulnerability := by
  obtain ⟨⟨wd, err⟩, base, sa⟩ := env
  cases sa <;>
  · simp only [startFlags, FlagSet.Int64P, FlagSet.StringP, FlagSet.StringSliceP,
      FlagSet.StringSlice, FlagSet.StringToString, FlagSet.BoolP, FlagSet.Bool, FlagSet.VarPF,
      NewFlagSet, FlagSet.AddFlag_mk, FlagSet.ok_bind, List.find?_cons, List.find?_nil,
      List.cons_append, List.nil_append, Option.map_none', Option.map_some', String.reduceBEq,
      Char.reduceBEq, Bool.not_false, Bool.not_true, Bool.false_eq_true, if_true, if_false,
      pure, Except.pure, Except.ok.injEq, exists_and_left, exists_eq_left',
      FlagSet.GetStringSlice, FlagSet.GetInt64, FlagSet.GetBool, FlagSet.Lookup,
      FlagSet.ShorthandLookup]
    refine ⟨trivial, rfl, fun t => ?_⟩
    cases t <;> decide

/-- C4: the flag `information-severity` is registered with the shorthand `I` and the default
`false`: findings of severity INFO are enabled only by opting in. -/
theorem information_severity_default (env : Env) :
    ∃ fs, startFlags env NewFlagSet = .ok fs ∧
      fs.GetBool "information-severity" = .ok false ∧
      (fs.ShorthandLookup 'I').map (fun f => f.Name) = some "information-severity" := by
  obtain ⟨⟨wd, err⟩, base, sa⟩ := env
  cases sa <;>
  · simp only [startFlags, FlagSet.Int64P, FlagSet.StringP, FlagSet.StringSliceP,
      FlagSet.StringSlice, FlagSet.StringToString, FlagSet.BoolP, FlagSet.Bool, FlagSet.VarPF,
      NewFlagSet, FlagSet.AddFlag_mk, FlagSet.ok_bind, List.find?_cons, List.find?_nil,
      List.cons_append, List.nil_append, Option.map_none', Option.map_some', String.reduceBEq,
      Char.reduceBEq, Bool.not_false, Bool.not_true, Bool.false_eq_true, if_true, if_false,
      pure, Except.pure, Except.ok.injEq, exists_and_left, exists_eq_left',
      FlagSet.GetStringSlice, FlagSet.GetInt64, FlagSet.GetBool, FlagSet.Lookup,
      FlagSet.ShorthandLookup]
    exact ⟨trivial, trivial⟩

/-- C5: the defaults registered for `request-timeout` and `analysis-timeout` are 300 and 600:
both are positive and the request timeout does not exceed the analysis timeout. -/
theorem timeouts_default (env : Env) :
    ∃ fs request analysis, startFlags env NewFlagSet = .ok fs ∧
      fs.GetInt64 "request-timeout" = .ok request ∧
      fs.GetInt64 "analysis-timeout" = .ok analysis ∧
      request = 300 ∧ analysis = 600 ∧ 0 < request ∧ 0 < analysis ∧ request ≤ analysis := by
  obtain ⟨⟨wd, err⟩, base, sa⟩ := env
  cases sa <;>
  · simp only [startFlags, FlagSet.Int64P, FlagSet.StringP, FlagSet.StringSliceP,
      FlagSet.StringSlice, FlagSet.StringToString, FlagSet.BoolP, FlagSet.Bool, FlagSet.VarPF,
      NewFlagSet, FlagSet.AddFlag_mk, FlagSet.ok_bind, List.find?_cons, List.find?_nil,
      List.cons_append, List.nil_append, Option.map_none', Option.map_some', String.reduceBEq,
      Char.reduceBEq, Bool.not_false, Bool.not_true, Bool.false_eq_true, if_true, if_false,
      pure, Except.pure, Except.ok.injEq, exists_and_left, exists_eq_left',
      FlagSet.GetStringSlice, FlagSet.GetInt64, FlagSet.GetBool, FlagSet.Lookup,
      FlagSet.ShorthandLookup]
    decide

/-- C7: the flag `return-error` is registered with the default `false`: an error on found
vulnerabilities is returned only by opting in. -/
theorem return_error_default (env : Env) :
    ∃ fs, startFlags env NewFlagSet = .ok fs ∧
      fs.GetBool "return-error" = .ok false ∧
      (fs.ShorthandLookup 'e').map (fun f => f.Name) = some "return-error" := by
  obtain ⟨⟨wd, err⟩, base, sa⟩ := env
  cases sa <;>
  · simp only [startFlags, FlagSet.Int64P, FlagSet.StringP, FlagSet.StringSliceP,
      FlagSet.StringSlice, FlagSet.StringToString, FlagSet.BoolP, FlagSet.Bool, FlagSet.VarPF,
      NewFlagSet, FlagSet.AddFlag_mk, FlagSet.ok_bind, List.find?_cons, List.find?_nil,
      List.cons_append, List.nil_append, Option.map_none', Option.map_some', String.reduceBEq,
      Char.reduceBEq, Bool.not_false, Bool.not_true, Bool.false_eq_true, if_true, if_false,
      pure, Except.pure, Except.ok.injEq, exists_and_left, exists_eq_left',
      FlagSet.GetStringSlice, FlagSet.GetInt64, FlagSet.GetBool, FlagSet.Lookup,
      FlagSet.ShorthandLookup]
    exact ⟨trivial, trivial⟩

/-- C6: the defaults registered for `false-positive` and `risk-accept` are both the empty
list. No hash is in either set, and with these two sets the hash rule leaves every finding as
it is, so its type stays Vulnerability. -/
theorem hash_sets_default (env : Env) :
    ∃ fs falsePositive riskAccept, startFlags env NewFlagSet = .ok fs ∧
      fs.GetStringSlice "false-positive" = .ok falsePositive ∧
      fs.GetStringSlice "risk-accept" = .ok riskAccept ∧
      falsePositive = [] ∧ riskAccept = [] ∧
      (∀ hash : String, hash ∉ falsePositive ∧ hash ∉ riskAccept) ∧
      ∀ {CustomImages MapToolConfig WorkDir : Type}
        (config : NewConfig CustomImages MapToolConfig WorkDir) (f : Finding),
        reclassify { config with
          HorusecCliFalsePositiveHashes := falsePositive
          HorusecCliRiskAcceptHashes := riskAccept } f = f ∧
        (reclassify { config with
          HorusecCliFalsePositiveHashes := falsePositive
          HorusecCliRiskAcceptHashes := riskAccept }
          { f with vulnType := .Vulnerability }).vulnType = .Vulnerability := by
  obtain ⟨⟨wd, err⟩, base, sa⟩ := env
  cases sa <;>
  · simp only [startFlags, FlagSet.Int64P, FlagSet.StringP, FlagSet.StringSliceP,
      FlagSet.StringSlice, FlagSet.StringToString, FlagSet.BoolP, FlagSet.Bool, FlagSet.VarPF,
      NewFlagSet, FlagSet.AddFlag_mk, FlagSet.ok_bind, List.find?_cons, List.find?_nil,
      List.cons_append, List.nil_append, Option.map_none', Option.map_some', String.reduceBEq,
      Char.reduceBEq, Bool.not_false, Bool.not_true, Bool.false_eq_true, if_true, if_false,
      pure, Except.pure, Except.ok.injEq, exists_and_left, exists_eq_left',
      FlagSet.GetStringSlice, FlagSet.GetInt64, FlagSet.GetBool, FlagSet.Lookup,
      FlagSet.ShorthandLookup]
    refine ⟨trivial, trivial, fun hash => ⟨List.not_mem_nil hash, List.not_mem_nil hash⟩, ?_⟩
    intro _ _ _ config f
    simp [reclassify]

set_option maxRecDepth 100000 in
/-- C8: the flag `enable-shellcheck` is registered with the shorthand `j`, while the example
of its own usage text shows `-h`; no flag is registered with the shorthand `h`. It is the only
flag whose usage example shows another shorthand than the registered one. -/
theorem enable_shellcheck_shorthand (env : Env) :
    ∃ fs flag, startFlags env NewFlagSet = .ok fs ∧
      fs.Lookup "enable-shellcheck" = some flag ∧
      flag.Shorthand = "j" ∧
      flag.Usage = "Enable shellcheck. Example -h=\"true\". Default: false" ∧
      exampleShorthand flag.Usage.data = some 'h' ∧
      exampleAgrees flag.Shorthand flag.Usage = false ∧
      fs.ShorthandLookup 'j' = some flag ∧
      fs.ShorthandLookup 'h' = none ∧
      ((fs.formal.map (fun f => (f.Name, f.Shorthand, f.Usage))).filter
        (fun t => !exampleAgrees t.2.1 t.2.2)).map (fun t => t.1) = ["enable-shellcheck"] := by
  obtain ⟨⟨wd, err⟩, base, sa⟩ := env
  cases sa <;>
  · simp only [startFlags, FlagSet.Int64P, FlagSet.StringP, FlagSet.StringSliceP,
      FlagSet.StringSlice, FlagSet.StringToString, FlagSet.BoolP, FlagSet.Bool, FlagSet.VarPF,
      NewFlagSet, FlagSet.AddFlag_mk, FlagSet.ok_bind, List.find?_cons, List.find?_nil,
      List.cons_append, List.nil_append, Option.map_none', Option.map_some', String.reduceBEq,
      Char.reduceBEq, Bool.not_false, Bool.not_true, Bool.false_eq_true, if_true, if_false,
      pure, Except.pure, Except.ok.injEq, exists_and_left, exists_eq_left',
      FlagSet.GetStringSlice, FlagSet.GetInt64, FlagSet.GetBool, FlagSet.Lookup,
      FlagSet.ShorthandLookup, Option.some.injEq, List.map_cons, List.map_nil]
    decide

/-- C9: for both values of `dist.IsStandAlone()`, `startFlags` on a new flag set registers
every flag without a failure; the long names are pairwise distinct and so are the shorthands
that are not empty, compared case-sensitively (`o` and `O`, `s` and `S` are all there). -/
theorem names_and_shorthands_distinct (env : Env) :
    ∃ fs, startFlags env NewFlagSet = .ok fs ∧
      (fs.formal.map (fun f => f.Name)).Nodup ∧
      ((fs.formal.map (fun f => f.Shorthand)).filter (fun s => s != "")).Nodup ∧
      (fs.shorthands.map (fun p => p.1)).Nodup ∧
      ["o", "O", "s", "S"] ⊆ fs.formal.map (fun f => f.Shorthand) := by
  obtain ⟨⟨wd, err⟩, base, sa⟩ := env
  cases sa <;>
  · simp only [startFlags, FlagSet.Int64P, FlagSet.StringP, FlagSet.StringSliceP,
      FlagSet.StringSlice, FlagSet.StringToString, FlagSet.BoolP, FlagSet.Bool, FlagSet.VarPF,
      NewFlagSet, FlagSet.AddFlag_mk, FlagSet.ok_bind, List.find?_cons, List.find?_nil,
      List.cons_append, List.nil_append, Option.map_none', Option.map_some', String.reduceBEq,
      Char.reduceBEq, Bool.not_false, Bool.not_true, Bool.false_eq_true, if_true, if_false,
      pure, Except.pure, Except.ok.injEq, exists_and_left, exists_eq_left',
      FlagSet.GetStringSlice, FlagSet.GetInt64, FlagSet.GetBool, FlagSet.Lookup,
      FlagSet.ShorthandLookup, List.map_cons, List.map_nil]
    decide

/-- C10: `disable-docker` is registered exactly when `dist.IsStandAlone()` is false, then
with the shorthand `D` and the default `false`, as the last flag; all flags before it are
registered the same for both values of `dist.IsStandAlone()`. -/
theorem disable_docker_registration (getwd : String × Option String) (base : String → String) :
    ∃ fsAlone fsDocker flag,
      startFlags ⟨getwd, base, true⟩ NewFlagSet = .ok fsAlone ∧
      startFlags ⟨getwd, base, false⟩ NewFlagSet = .ok fsDocker ∧
      fsAlone.Lookup "disable-docker" = none ∧
      fsDocker.Lookup "disable-docker" = some flag ∧
      flag.Shorthand = "D" ∧
      flag.Value = .bool false ∧
      fsDocker.formal = fsAlone.formal ++ [flag] ∧
      fsDocker.shorthands = fsAlone.shorthands ++ [('D', flag)] := by
  obtain ⟨wd, err⟩ := getwd
  simp only [startFlags, FlagSet.Int64P, FlagSet.StringP, FlagSet.StringSliceP,
      FlagSet.StringSlice, FlagSet.StringToString, FlagSet.BoolP, FlagSet.Bool, FlagSet.VarPF,
      NewFlagSet, FlagSet.AddFlag_mk, FlagSet.ok_bind, List.find?_cons, List.find?_nil,
      List.cons_append, List.nil_append, Option.map_none', Option.map_some', String.reduceBEq,
      Char.reduceBEq, Bool.not_false, Bool.not_true, Bool.false_eq_true, if_true, if_false,
      pure, Except.pure, Except.ok.injEq, exists_and_left, exists_eq_left',
      FlagSet.GetStringSlice, FlagSet.GetInt64, FlagSet.GetBool, FlagSet.Lookup,
      FlagSet.ShorthandLookup, Option.some.injEq]
  decide

/-- C3: a finding whose file path matches one of the configured ignore globs is not in the
final report, and no finding of the report has its path. The default registered for `ignore`
is `["*tmp*", "**/.vscode/**"]`; the path `proj/.vscode/settings.json` matches the glob
`**/.vscode/**`, so with this list no finding of the report has that path. -/
theorem ignored_paths_absent :
    (∀ {CustomImages MapToolConfig WorkDir : Type} (rank : Severity → Nat)
        (config : NewConfig CustomImages MapToolConfig WorkDir) (fs : List Finding)
        (F : Finding),
        ignoredPath config F.filePath = true →
        F ∉ (Aggregate rank config (Classify config fs)).findings ∧
        ∀ G ∈ (Aggregate rank config (Classify config fs)).findings,
          G.filePath ≠ F.filePath) ∧
    (∀ env : Env, ∃ flags ignore, startFlags env NewFlagSet = .ok flags ∧
        flags.GetStringSlice "ignore" = .ok ignore ∧
        ignore = ["*tmp*", "**/.vscode/**"] ∧
        globMatch "**/.vscode/**" "proj/.vscode/settings.json" = true ∧
        ∀ {CustomImages MapToolConfig WorkDir : Type} (rank : Severity → Nat)
          (config : NewConfig CustomImages MapToolConfig WorkDir) (fs : List Finding),
          ∀ G ∈ (Aggregate rank { config with HorusecCliFilesOrPathsToIgnore := ignore }
              (Classify { config with HorusecCliFilesOrPathsToIgnore := ignore } fs)).findings,
            G.filePath ≠ "proj/.vscode/settings.json") := by
  have absent : ∀ {CustomImages MapToolConfig WorkDir : Type} (rank : Severity → Nat)
      (config : NewConfig CustomImages MapToolConfig WorkDir) (fs : List Finding)
      (path : String), ignoredPath config path = true →
      ∀ G ∈ (Aggregate rank config (Classify config fs)).findings, G.filePath ≠ path := by
    intro _ _ _ rank config fs path hpath G hG hEq
    have hno := not_ignored_of_mem_Aggregate rank config fs G hG
    rw [hEq, hpath] at hno
    exact Bool.noConfusion hno
  have vscode : ["*tmp*", "**/.vscode/**"].any
      (fun g => globMatch g "proj/.vscode/settings.json") = true := by decide
  refine ⟨fun rank config fs F hF => ⟨fun hmem => absent rank config fs _ hF F hmem rfl,
    absent rank config fs _ hF⟩, fun env => ?_⟩
  obtain ⟨⟨wd, err⟩, base, sa⟩ := env
  cases sa <;>
  · simp only [startFlags, FlagSet.Int64P, FlagSet.StringP, FlagSet.StringSliceP,
      FlagSet.StringSlice, FlagSet.StringToString, FlagSet.BoolP, FlagSet.Bool, FlagSet.VarPF,
      NewFlagSet, FlagSet.AddFlag_mk, FlagSet.ok_bind, List.find?_cons, List.find?_nil,
      List.cons_append, List.nil_append, Option.map_none', Option.map_some', String.reduceBEq,
      Char.reduceBEq, Bool.not_false, Bool.not_true, Bool.false_eq_true, if_true, if_false,
      pure, Except.pure, Except.ok.injEq, exists_and_left, exists_eq_left',
      FlagSet.GetStringSlice, FlagSet.GetInt64, FlagSet.GetBool, FlagSet.Lookup,
      FlagSet.ShorthandLookup]
    exact ⟨trivial, by decide, fun rank config fs => absent rank _ fs _ vscode⟩

/-- An instance of `ignored_paths_absent`: with the ignore list of `exampleConfig`, the
finding at `proj/.vscode/settings.json` is not in the report of the two example findings; the
report is the finding at `src/a.go` alone. -/
theorem ignored_paths_absent_witness :
    ignoredPath exampleConfig vscodeFinding.filePath = true ∧
      vscodeFinding ∉ (Aggregate exampleRank exampleConfig
        (Classify exampleConfig [vscodeFinding, sourceFinding])).findings ∧
      (Aggregate exampleRank exampleConfig
        (Classify exampleConfig [vscodeFinding, sourceFinding])).findings = [sourceFinding] :=
  ⟨by decide,
    (ignored_paths_absent.1 exampleRank exampleConfig [vscodeFinding, sourceFinding]
      vscodeFinding (by decide)).1,
    by decide⟩

end start
